import Mathlib

/-!
Shallow embedding of `apihat-node` (`src/apihat.js`), a request/response
logging middleware for Express, together with proofs about the claims of
its specification.

The embedding models:
  * JS values that can appear as request/response bodies (`JsValue`, `Body`);
  * `JSON.stringify` (`jsonStringify`) and `Buffer.byteLength(_, "utf8")`
    (`String.utf8ByteSize`);
  * the monkey-patched `res.send` / `res.render` wrappers installed by
    `useApiHat` (`wrappedSend`, `wrappedRender`) over an explicit response
    state (`RespState`);
  * the finish handler and the payload builder `sendPayloadToApiHat`,
    with the telemetry record construction split out as
    `buildTelemetryRecord`;
  * the duration helper `getRequestDuration` and the masking no-op
    `maskSensitiveValues`.

Ambient process facts (timezone, OS descriptors, node version, current
time) are threaded through an explicit `Env` parameter.
-/

/-- A JavaScript value as it can appear in a JSON-serializable position.
`undefined` is represented externally by `Option`/`Body.undefined`. -/
inductive JsValue where
| null : JsValue
| bool (b : Bool) : JsValue
| num (q : ℚ) : JsValue
| str (s : String) : JsValue
| arr (elems : List JsValue) : JsValue
| obj (props : List (String × JsValue)) : JsValue
deriving Repr

mutual

/-- Decidable equality on `JsValue` (hand-rolled: the derive handler does
not support this nested inductive). -/
def JsValue.decEq : (a b : JsValue) → Decidable (a = b)
| JsValue.null, JsValue.null => isTrue rfl
| JsValue.bool a, JsValue.bool b =>
  if h : a = b then isTrue (by rw [h]) else isFalse (fun hh => h (JsValue.bool.inj hh))
| JsValue.num a, JsValue.num b =>
  if h : a = b then isTrue (by rw [h]) else isFalse (fun hh => h (JsValue.num.inj hh))
| JsValue.str a, JsValue.str b =>
  if h : a = b then isTrue (by rw [h]) else isFalse (fun hh => h (JsValue.str.inj hh))
| JsValue.arr xs, JsValue.arr ys =>
  match JsValue.decEqList xs ys with
  | isTrue h => isTrue (by rw [h])
  | isFalse h => isFalse (fun hh => h (JsValue.arr.inj hh))
| JsValue.obj xs, JsValue.obj ys =>
  match JsValue.decEqProps xs ys with
  | isTrue h => isTrue (by rw [h])
  | isFalse h => isFalse (fun hh => h (JsValue.obj.inj hh))
| JsValue.null, JsValue.bool _ | JsValue.null, JsValue.num _
| JsValue.null, JsValue.str _ | JsValue.null, JsValue.arr _
| JsValue.null, JsValue.obj _
| JsValue.bool _, JsValue.null | JsValue.bool _, JsValue.num _
| JsValue.bool _, JsValue.str _ | JsValue.bool _, JsValue.arr _
| JsValue.bool _, JsValue.obj _
| JsValue.num _, JsValue.null | JsValue.num _, JsValue.bool _
| JsValue.num _, JsValue.str _ | JsValue.num _, JsValue.arr _
| JsValue.num _, JsValue.obj _
| JsValue.str _, JsValue.null | JsValue.str _, JsValue.bool _
| JsValue.str _, JsValue.num _ | JsValue.str _, JsValue.arr _
| JsValue.str _, JsValue.obj _
| JsValue.arr _, JsValue.null | JsValue.arr _, JsValue.bool _
| JsValue.arr _, JsValue.num _ | JsValue.arr _, JsValue.str _
| JsValue.arr _, JsValue.obj _
| JsValue.obj _, JsValue.null | JsValue.obj _, JsValue.bool _
| JsValue.obj _, JsValue.num _ | JsValue.obj _, JsValue.str _
| JsValue.obj _, JsValue.arr _ =>
  isFalse (fun h => JsValue.noConfusion h)

/-- Decidable equality on lists of `JsValue`. -/
def JsValue.decEqList : (a b : List JsValue) → Decidable (a = b)
| [], [] => isTrue rfl
| [], _ :: _ => isFalse (fun h => List.noConfusion h)
| _ :: _, [] => isFalse (fun h => List.noConfusion h)
| x :: xs, y :: ys =>
  match JsValue.decEq x y with
  | isFalse h1 => isFalse (fun h => h1 (List.cons.inj h).1)
  | isTrue h1 =>
    match JsValue.decEqList xs ys with
    | isTrue h2 => isTrue (by rw [h1, h2])
    | isFalse h2 => isFalse (fun h => h2 (List.cons.inj h).2)

/-- Decidable equality on property lists of `JsValue`. -/
def JsValue.decEqProps : (a b : List (String × JsValue)) → Decidable (a = b)
| [], [] => isTrue rfl
| [], _ :: _ => isFalse (fun h => List.noConfusion h)
| _ :: _, [] => isFalse (fun h => List.noConfusion h)
| (k, v) :: xs, (l, w) :: ys =>
  if hk : k = l then
    match JsValue.decEq v w with
    | isFalse h1 =>
      isFalse (fun h => h1 (congrArg Prod.snd (List.cons.inj h).1))
    | isTrue h1 =>
      match JsValue.decEqProps xs ys with
      | isTrue h2 => isTrue (by rw [hk, h1, h2])
      | isFalse h2 => isFalse (fun h => h2 (List.cons.inj h).2)
  else
    isFalse (fun h => hk (congrArg Prod.fst (List.cons.inj h).1))

end

instance : DecidableEq JsValue := JsValue.decEq

/-- A value the middleware can see as `req.body` / `res.send` argument:
absent (`undefined`), a string, or a value whose JS `typeof` is
`object` (objects, arrays, and `null`), carried as a `JsValue`. -/
inductive Body where
| undefined : Body
| str (s : String) : Body
| obj (v : JsValue) : Body
deriving Repr, DecidableEq

/-- Decimal digits of the fractional part `0 ≤ q < 1`, with fuel.
All number values built by this middleware are dyadic rationals
(byte counts divided by 1024), whose decimal expansion is finite, so the
fuel is never exhausted on reachable values. -/
def fracDigits : ℚ → ℕ → String
| _, 0 => ""
| q, Nat.succ n =>
  if q = 0 then ""
  else
    let q10 := q * 10
    let d := (Rat.floor q10).toNat
    String.singleton (Nat.digitChar d) ++ fracDigits (q10 - (d : ℚ)) n

/-- Decimal rendering of a non-negative rational, as JS prints the
finite-decimal numbers occurring in this payload. -/
def numToStringNonneg (q : ℚ) : String :=
  let ip := (Rat.floor q).toNat
  let fp := q - (ip : ℚ)
  if fp = 0 then toString ip else toString ip ++ "." ++ fracDigits fp 64

/-- Decimal rendering of a rational number, as JS `JSON.stringify` prints
the finite-decimal numbers occurring in this payload. -/
def numToString (q : ℚ) : String :=
  if q < 0 then "-" ++ numToStringNonneg (-q) else numToStringNonneg q

/-- The 4-hex-digit escape used by JSON for control characters. -/
def escUni (n : ℕ) : String :=
  "\\u" ++ String.singleton (Nat.digitChar (n / 4096 % 16))
        ++ String.singleton (Nat.digitChar (n / 256 % 16))
        ++ String.singleton (Nat.digitChar (n / 16 % 16))
        ++ String.singleton (Nat.digitChar (n % 16))

/-- JSON escaping of one character, as performed by `JSON.stringify`. -/
def jsonEscapeChar (c : Char) : String :=
  if c = Char.ofNat 34 then "\\\""
  else if c = Char.ofNat 92 then "\\\\"
  else if c = Char.ofNat 10 then "\\n"
  else if c = Char.ofNat 13 then "\\r"
  else if c = Char.ofNat 9 then "\\t"
  else if c = Char.ofNat 8 then "\\b"
  else if c = Char.ofNat 12 then "\\f"
  else if c.toNat < 32 then escUni c.toNat
  else String.singleton c

/-- JSON string literal for `s`, as produced by `JSON.stringify`. -/
def jsonQuote (s : String) : String :=
  "\"" ++ String.join (s.toList.map jsonEscapeChar) ++ "\""

mutual

/-- `JSON.stringify` on a JS value. -/
def jsonStringify : JsValue → String
| JsValue.null => "null"
| JsValue.bool true => "true"
| JsValue.bool false => "false"
| JsValue.num q => numToString q
| JsValue.str s => jsonQuote s
| JsValue.arr xs => "[" ++ jsonStringifyList xs ++ "]"
| JsValue.obj kvs => "\x7b" ++ jsonStringifyProps kvs ++ "\x7d"

/-- Comma-separated serialization of array elements. -/
def jsonStringifyList : List JsValue → String
| [] => ""
| [x] => jsonStringify x
| x :: y :: xs => jsonStringify x ++ "," ++ jsonStringifyList (y :: xs)

/-- Comma-separated serialization of object properties. -/
def jsonStringifyProps : List (String × JsValue) → String
| [] => ""
| [(k, v)] => jsonQuote k ++ ":" ++ jsonStringify v
| (k, v) :: p :: ps =>
  jsonQuote k ++ ":" ++ jsonStringify v ++ "," ++ jsonStringifyProps (p :: ps)

end

/-- Ambient process facts read while building the payload: timezone from
`Intl.DateTimeFormat`, `os.platform()/release()/arch()`, `process.version`,
and the current time as `new Date().toISOString()`. -/
structure Env where
  timezone : String
  osPlatform : String
  osRelease : String
  osArch : String
  nodeVersion : String
  nowISO : String
deriving Repr, DecidableEq

/-- JS `s.replace(pat, repl)` with a string pattern replaces only the
first occurrence. -/
def replaceFirst (s pat repl : String) : String :=
  match s.splitOn pat with
  | [] => s
  | a :: rest =>
    if rest.isEmpty then a else a ++ repl ++ String.intercalate pat rest

/-- ASCII lowercase of one character, as applied to header names. -/
def lowerChar (c : Char) : Char :=
  if 65 ≤ c.toNat ∧ c.toNat ≤ 90 then Char.ofNat (c.toNat + 32) else c

/-- ASCII lowercase of a header name. -/
def lowerStr (s : String) : String := String.mk (s.toList.map lowerChar)

/-- Case-insensitive response-header lookup, as Express `res.get(name)`. -/
def getHeaderCI (headers : List (String × String)) (name : String) :
    Option String :=
  (headers.find? (fun p => lowerStr p.1 == lowerStr name)).map (fun p => p.2)

/-- Exact-key request-header lookup, `req.headers[name]`; Node lower-cases
incoming header names. -/
def getHeader (headers : List (String × String)) (name : String) :
    Option String :=
  (headers.find? (fun p => p.1 == name)).map (fun p => p.2)

/-- The `fieldsToMaskMap` mapping of field names to masking rules. -/
abbrev MaskMap := List (String × String)

/-- `maskSensitiveValues(payload, fieldsToMaskMap)` — src/apihat.js
lines 177-179: it returns the payload unchanged. -/
def maskSensitiveValues {α : Type} (payload : α) (fieldsToMaskMap : MaskMap) :
    α :=
  payload

/-- The body-to-string conversion in `sendPayloadToApiHat` (lines 94-96):
`typeof body === "object" ? JSON.stringify(body) : body || ""`.
`Body.obj` covers exactly the values whose JS typeof is "object", and for
a string `s`, `s || ""` is `s` (the empty string is its own fallback). -/
def bodyToString : Body → String
| Body.undefined => ""
| Body.str s => s
| Body.obj v => jsonStringify v

/-- `x !== undefined ? x : null`, applied to the masked payloads when the
record's body fields are filled in (lines 132 and 139). -/
def definedOrNull : Body → Body
| Body.undefined => Body.obj JsValue.null
| Body.str s => Body.str s
| Body.obj v => Body.obj v

/-- The error object optionally found at `res.locals.error`; `fileName`
and `lineNumber` are non-standard and may be absent. -/
structure ErrObj where
  message : String
  fileName : Option String
  lineNumber : Option ℕ
deriving Repr, DecidableEq

/-- One element of the `errors` array of the telemetry record
(lines 81-88). -/
structure ErrorDescriptor where
  source : String
  type : String
  message : String
  file : Option String
  line : Option ℕ
deriving Repr, DecidableEq

/-- `getRequestDuration` (src/apihat.js lines 166-172). `hrDiff` is the
seconds/nanoseconds pair returned by `process.hrtime(startTime)`; the
result is `Math.ceil((diff[0] * 1e9 + diff[1]) / 1e3)`. -/
def getRequestDuration (hrDiff : ℤ × ℤ) : ℤ :=
  ⌈((hrDiff.1 * 1000000000 + hrDiff.2 : ℤ) : ℚ) / 1000⌉

/-- The `os` sub-object of the server descriptor (lines 110-114). -/
structure OsInfo where
  name : String
  release : String
  architecture : String
deriving Repr, DecidableEq

/-- The `server` part of the telemetry record (lines 108-118). -/
structure ServerInfo where
  timezone : String
  os : OsInfo
  software : Option String
  signature : Option String
  protocol : String
deriving Repr, DecidableEq

/-- The `language` part of the telemetry record (lines 119-122). -/
structure LanguageInfo where
  name : String
  version : String
deriving Repr, DecidableEq

/-- The `request` part of the telemetry record (lines 123-132). -/
structure RequestInfo where
  timestamp : String
  ip : String
  url : String
  user_agent : Option String
  method : String
  headers : List (String × String)
  body : Body
  size : ℚ
deriving Repr, DecidableEq

/-- The `response` part of the telemetry record (lines 133-139). -/
structure ResponseInfo where
  headers : List (String × String)
  code : ℕ
  size : ℚ
  load_time : ℤ
  body : Body
deriving Repr, DecidableEq

/-- One telemetry record, the single element of `dataToSend`
(lines 101-141). -/
structure TelemetryRecord where
  api_key : String
  project_id : String
  version : String
  sdk : String
  server : ServerInfo
  language : LanguageInfo
  request : RequestInfo
  response : ResponseInfo
  errors : List ErrorDescriptor
deriving Repr, DecidableEq

/-- The request snapshot passed to `sendPayloadToApiHat` by the finish
handler (src/apihat.js lines 47-56); `size` is the `requestSize` captured
at middleware entry (line 18). -/
structure RequestData where
  body : Body
  headers : List (String × String)
  method : String
  url : String
  ip : String
  protocol : String
  httpVersion : String
  size : ℕ
deriving Repr, DecidableEq

/-- The value of the `responseSize` computation (line 43): either the
string taken from the Content-Length header, or a computed byte count. -/
inductive SizeVal where
| header (s : String)
| bytes (n : ℕ)
deriving Repr, DecidableEq

/-- The response snapshot passed to `sendPayloadToApiHat` by the finish
handler (src/apihat.js lines 57-62). -/
structure ResponseData where
  body : Body
  headers : List (String × String)
  statusCode : ℕ
  length : SizeVal
deriving Repr, DecidableEq

/-- The single element of `dataToSend` built in `sendPayloadToApiHat`
(src/apihat.js lines 72-141), with the ambient process facts in `env` and
the `process.hrtime(requestStartTime)` pair in `hrDiff`. -/
def buildTelemetryRecord (env : Env) (apiKey projectId : String)
    (requestData : RequestData) (responseData : ResponseData)
    (hrDiff : ℤ × ℤ) (error : Option ErrObj) (fieldsToMaskMap : MaskMap) :
    TelemetryRecord :=
  let maskedRequestPayload := maskSensitiveValues requestData.body fieldsToMaskMap
  let maskedResponsePayload := maskSensitiveValues responseData.body fieldsToMaskMap
  let errors : List ErrorDescriptor :=
    match error with
    | some e =>
      [{ source := "onException", type := "UNHANDLED_EXCEPTION",
         message := e.message, file := e.fileName, line := e.lineNumber }]
    | none => []
  let protocol := requestData.protocol.toUpper ++ "/" ++ requestData.httpVersion
  let requestBodyString := bodyToString requestData.body
  let responseBodyString := bodyToString responseData.body
  let requestSizeInKB : ℚ := (requestBodyString.utf8ByteSize : ℚ) / 1024
  let responseSizeInKB : ℚ := (responseBodyString.utf8ByteSize : ℚ) / 1024
  { api_key := apiKey
    project_id := projectId
    version := "1.0.0"
    sdk := "node"
    server :=
      { timezone := env.timezone
        os :=
          { name := env.osPlatform
            release := env.osRelease
            architecture := env.osArch }
        software := none
        signature := none
        protocol := protocol }
    language := { name := "node", version := env.nodeVersion }
    request :=
      { timestamp := (replaceFirst env.nowISO "T" " ").take 19
        ip := requestData.ip
        url := requestData.url
        user_agent := getHeader requestData.headers "user-agent"
        method := requestData.method
        headers := maskSensitiveValues requestData.headers fieldsToMaskMap
        body := definedOrNull maskedRequestPayload
        size := requestSizeInKB }
    response :=
      { headers := maskSensitiveValues responseData.headers fieldsToMaskMap
        code := responseData.statusCode
        size := responseSizeInKB
        load_time := getRequestDuration hrDiff
        body := definedOrNull maskedResponsePayload }
    errors := errors }

/-- Optional JSON property: `JSON.stringify` omits properties whose value
is `undefined`. -/
def optProp (k : String) (v : Option JsValue) : List (String × JsValue) :=
  match v with
  | some x => [(k, x)]
  | none => []

/-- Header mappings serialize as JSON objects with string values. -/
def headersToJs (hs : List (String × String)) : JsValue :=
  JsValue.obj (hs.map (fun p => (p.1, JsValue.str p.2)))

/-- A record body field as a JSON value (after `definedOrNull` the
`undefined` case cannot occur; it is mapped to null for totality). -/
def bodyFieldToJs : Body → JsValue
| Body.undefined => JsValue.null
| Body.str s => JsValue.str s
| Body.obj v => v

/-- An error descriptor as a JSON value. -/
def errorToJs (e : ErrorDescriptor) : JsValue :=
  JsValue.obj
    ([("source", JsValue.str e.source), ("type", JsValue.str e.type),
      ("message", JsValue.str e.message)]
     ++ optProp "file" (e.file.map JsValue.str)
     ++ optProp "line" (e.line.map (fun n => JsValue.num (n : ℚ))))

/-- A telemetry record as the JSON value `JSON.stringify` serializes,
with the exact property layout of `dataToSend` (lines 101-141). -/
def recordToJs (r : TelemetryRecord) : JsValue :=
  let osJs := JsValue.obj
    [("name", JsValue.str r.server.os.name),
     ("release", JsValue.str r.server.os.release),
     ("architecture", JsValue.str r.server.os.architecture)]
  let serverJs := JsValue.obj
    [("timezone", JsValue.str r.server.timezone),
     ("os", osJs),
     ("software", (r.server.software.map JsValue.str).getD JsValue.null),
     ("signature", (r.server.signature.map JsValue.str).getD JsValue.null),
     ("protocol", JsValue.str r.server.protocol)]
  let languageJs := JsValue.obj
    [("name", JsValue.str r.language.name),
     ("version", JsValue.str r.language.version)]
  let requestJs := JsValue.obj
    ([("timestamp", JsValue.str r.request.timestamp),
      ("ip", JsValue.str r.request.ip),
      ("url", JsValue.str r.request.url)]
     ++ optProp "user_agent" (r.request.user_agent.map JsValue.str)
     ++ [("method", JsValue.str r.request.method),
         ("headers", headersToJs r.request.headers),
         ("body", bodyFieldToJs r.request.body),
         ("size", JsValue.num r.request.size)])
  let responseJs := JsValue.obj
    [("headers", headersToJs r.response.headers),
     ("code", JsValue.num (r.response.code : ℚ)),
     ("size", JsValue.num r.response.size),
     ("load_time", JsValue.num (r.response.load_time : ℚ)),
     ("body", bodyFieldToJs r.response.body)]
  let dataJs := JsValue.obj
    [("server", serverJs),
     ("language", languageJs),
     ("request", requestJs),
     ("response", responseJs),
     ("errors", JsValue.arr (r.errors.map errorToJs))]
  JsValue.obj
    [("api_key", JsValue.str r.api_key),
     ("project_id", JsValue.str r.project_id),
     ("version", JsValue.str r.version),
     ("sdk", JsValue.str r.sdk),
     ("data", dataJs)]

/-- The argument pair of the `fetch` call issued by the reporter
(src/apihat.js lines 145-152). -/
structure FetchCall where
  url : String
  method : String
  headers : List (String × String)
  body : String
deriving Repr, DecidableEq

/-- The one-element array `dataToSend` (src/apihat.js lines 101-142). -/
def dataToSend (env : Env) (apiKey projectId : String)
    (requestData : RequestData) (responseData : ResponseData)
    (hrDiff : ℤ × ℤ) (error : Option ErrObj) (fieldsToMaskMap : MaskMap) :
    List TelemetryRecord :=
  [buildTelemetryRecord env apiKey projectId requestData responseData hrDiff
    error fieldsToMaskMap]

/-- `sendPayloadToApiHat` (src/apihat.js lines 72-163) up to the issued
`fetch` call: a POST of the JSON-serialized `dataToSend` to the fixed
collector endpoint. -/
def sendPayloadToApiHat (env : Env) (apiKey projectId : String)
    (requestData : RequestData) (responseData : ResponseData)
    (hrDiff : ℤ × ℤ) (error : Option ErrObj) (fieldsToMaskMap : MaskMap) :
    FetchCall :=
  { url := "https://api.apihat.com/api/requests"
    method := "POST"
    headers := [("Content-Type", "application/json"), ("x-api-key", apiKey)]
    body := jsonStringify (JsValue.arr
      ((dataToSend env apiKey projectId requestData responseData hrDiff error
          fieldsToMaskMap).map recordToJs)) }

/-- A settled response of the outbound `fetch`. -/
structure FetchResponse where
  ok : Bool
  statusText : String
deriving Repr, DecidableEq

/-- Outcome of the outbound `fetch`: a settled response or a transport
failure carrying the rejection message. -/
inductive FetchOutcome where
| response (r : FetchResponse)
| failure (message : String)
deriving Repr, DecidableEq

/-- The observable effect of one reporter run: the fetch calls attempted,
the console diagnostics written, and the error, if any, propagated out of
the promise chain. -/
structure ReportEffect where
  attempts : List FetchCall
  logs : List String
  thrown : Option String
deriving Repr, DecidableEq

/-- Resolution of `fetch(...).then(...).catch(...)` in
`sendPayloadToApiHat` (src/apihat.js lines 145-160): the `then` handler
logs non-ok statuses with `console.log`, the `catch` handler logs
transport failures with `console.error`; neither handler rethrows and the
`catch` terminates the chain, so no error propagates, and the single
`fetch` in the chain is attempted exactly once. -/
def reportToApiHat (call : FetchCall) (outcome : FetchOutcome) : ReportEffect :=
  { attempts := [call]
    logs :=
      match outcome with
      | FetchOutcome.response r =>
        if r.ok then []
        else ["[error] Sending data to API Hat failed: " ++ r.statusText]
      | FetchOutcome.failure _ => ["[error] Sending data to API Hat failed"]
    thrown := none }

/-- The second argument of `res.render`: an options object, a callback
function (identified abstractly by an id), or absent. -/
inductive RenderOpt where
| obj (v : JsValue)
| fn (f : ℕ)
| undefined
deriving Repr, DecidableEq

/-- A call reaching one of the original (framework) body-emission
methods captured at src/apihat.js lines 15-16. -/
inductive Emission where
| send (body : Body)
| render (view : String) (options : RenderOpt) (callback : Option ℕ)
deriving Repr, DecidableEq

/-- The response-object state the middleware manipulates: the scratch
field `__apiHat_body_response` and the calls that have reached the
original implementations. -/
structure RespState where
  scratch : Option Body
  emitted : List Emission
deriving Repr, DecidableEq

/-- A fresh response: no scratch value, nothing emitted. -/
def initResp : RespState := { scratch := none, emitted := [] }

/-- The original `res.send` captured before patching (line 15): it emits
its body argument. -/
def originalSend (body : Body) (st : RespState) : RespState :=
  { st with emitted := st.emitted ++ [Emission.send body] }

/-- The argument normalization Express performs inside `res.render`: a
function in options position becomes the callback and the options become
the empty object. -/
def normRenderArgs (options : RenderOpt) (callback : Option ℕ) :
    RenderOpt × Option ℕ :=
  match options with
  | RenderOpt.fn f => (RenderOpt.obj (JsValue.obj []), some f)
  | o => (o, callback)

/-- The original `res.render` captured before patching (line 16): it
normalizes its arguments as the framework does, then emits the render
call. -/
def originalRender (view : String) (options : RenderOpt) (callback : Option ℕ)
    (st : RespState) : RespState :=
  let n := normRenderArgs options callback
  { st with emitted := st.emitted ++ [Emission.render view n.1 n.2] }

/-- The patched `res.send` (src/apihat.js lines 20-23): it stores the body
in the scratch field, then delegates to the original with the same
argument. -/
def wrappedSend (body : Body) (st : RespState) : RespState :=
  originalSend body { st with scratch := some body }

/-- The patched `res.render` (src/apihat.js lines 25-33): a function in
options position is shifted into the callback and the options become the
empty object, the view name is stored in the scratch field, then the
original is invoked. -/
def wrappedRender (view : String) (options : RenderOpt) (callback : Option ℕ)
    (st : RespState) : RespState :=
  let n :=
    match options with
    | RenderOpt.fn f => (RenderOpt.obj (JsValue.obj []), some f)
    | o => (o, callback)
  originalRender view n.1 n.2 { st with scratch := some (Body.str view) }

/-- The payload a framework with template engine `renderer` delivers for
one emission: `send` delivers its body, `render` delivers the rendered
view. -/
def emissionPayload (renderer : String → RenderOpt → String) :
    Emission → Body
| Emission.send b => b
| Emission.render v o _ => Body.str (renderer v o)

/-- The payload stream delivered to the client for a response state,
under template engine `renderer`. -/
def payloadsOf (renderer : String → RenderOpt → String) (st : RespState) :
    List Body :=
  st.emitted.map (emissionPayload renderer)

/-- `x || ""` on a body value: the JS-falsy bodies (`undefined`, the
empty string, `null`) fall back to the empty string. -/
def truthyBodyOrEmptyStr : Body → JsValue
| Body.undefined => JsValue.str ""
| Body.str s => JsValue.str s
| Body.obj JsValue.null => JsValue.str ""
| Body.obj v => v

/-- `requestSize` captured at middleware entry (src/apihat.js line 18):
`Buffer.byteLength(JSON.stringify(req.body || ""), "utf8")`. -/
def requestSizeBytes (body : Body) : ℕ :=
  (jsonStringify (truthyBodyOrEmptyStr body)).utf8ByteSize

/-- `Buffer.byteLength(res.__apiHat_body_response || "", "utf8")`: `none`
models the TypeError Node raises when the argument is an object that is
neither a string nor null (only reachable when no Content-Length header
short-circuits the disjunction). -/
def scratchByteLength : Option Body → Option ℕ
| none => some (("" : String).utf8ByteSize)
| some (Body.str s) => some s.utf8ByteSize
| some (Body.obj JsValue.null) => some (("" : String).utf8ByteSize)
| some (Body.obj _) => none
| some Body.undefined => some (("" : String).utf8ByteSize)

/-- `responseSize` (src/apihat.js line 43): the Content-Length response
header when present and non-empty (a non-empty string is truthy), else
the byte length of the captured body. -/
def finishResponseSize (contentLength : Option String)
    (scratch : Option Body) : Option SizeVal :=
  match contentLength with
  | some s =>
    if s = "" then (scratchByteLength scratch).map SizeVal.bytes
    else some (SizeVal.header s)
  | none => (scratchByteLength scratch).map SizeVal.bytes

/-- The request fields the middleware reads. -/
structure Req where
  body : Body
  headers : List (String × String)
  method : String
  originalUrl : String
  ip : String
  protocol : String
  httpVersion : String
deriving Repr, DecidableEq

/-- The response fields the finish handler reads: the wrapped state with
the scratch field, `res.getHeaders()`, `res.statusCode`, and
`res.locals.error || null`. -/
structure ResSnapshot where
  state : RespState
  headers : List (String × String)
  statusCode : ℕ
  localsError : Option ErrObj
deriving Repr, DecidableEq

/-- `res.__apiHat_body_response` as a body value: absent is undefined. -/
def scratchBody : Option Body → Body
| none => Body.undefined
| some b => b

/-- The `requestData` argument built by the finish handler
(src/apihat.js lines 47-56). -/
def mkRequestData (req : Req) : RequestData :=
  { body := req.body
    headers := req.headers
    method := req.method
    url := req.originalUrl
    ip := req.ip
    protocol := req.protocol
    httpVersion := req.httpVersion
    size := requestSizeBytes req.body }

/-- The `responseData` argument built by the finish handler
(src/apihat.js lines 57-62). -/
def mkResponseData (res : ResSnapshot) (responseSize : SizeVal) :
    ResponseData :=
  { body := scratchBody res.state.scratch
    headers := res.headers
    statusCode := res.statusCode
    length := responseSize }

/-- The finish handler (src/apihat.js lines 38-67) up to the telemetry
record handed to the reporter, with `fieldsToMaskMap = []` as on line 41;
`none` models the `responseSize` computation raising. -/
def onFinishRecord (env : Env) (apiKey projectId : String) (req : Req)
    (res : ResSnapshot) (hrDiff : ℤ × ℤ) : Option TelemetryRecord :=
  (finishResponseSize (getHeaderCI res.headers "Content-Length")
      res.state.scratch).map
    (fun sz =>
      buildTelemetryRecord env apiKey projectId (mkRequestData req)
        (mkResponseData res sz) hrDiff res.localsError [])

/-- The finish handler up to the fetch call it issues. -/
def onFinish (env : Env) (apiKey projectId : String) (req : Req)
    (res : ResSnapshot) (hrDiff : ℤ × ℤ) : Option FetchCall :=
  (finishResponseSize (getHeaderCI res.headers "Content-Length")
      res.state.scratch).map
    (fun sz =>
      sendPayloadToApiHat env apiKey projectId (mkRequestData req)
        (mkResponseData res sz) hrDiff res.localsError [])

/-- Modelled from the spec wording of the size property, for comparison
with the code: the serialized body is the body JSON-stringified when it
is an object, the empty string when it is absent, the string itself
otherwise. -/
def specSerializedBody : Body → String
| Body.undefined => ""
| Body.obj v => jsonStringify v
| Body.str s => s

/-- Modelled from the spec wording of the size property: the UTF-8 byte
length of the serialized body divided by 1024. -/
def specSizeInKB (b : Body) : ℚ :=
  ((specSerializedBody b).utf8ByteSize : ℚ) / 1024

/-- A concrete ambient environment used for closed evaluations. -/
def envEx : Env :=
  { timezone := "UTC"
    osPlatform := "linux"
    osRelease := "6.8.0"
    osArch := "x64"
    nodeVersion := "v20.11.1"
    nowISO := "2026-10-11T12:00:00.000Z" }

/-- A concrete request snapshot used for closed evaluations. -/
def rdEx : RequestData :=
  { body := Body.undefined
    headers := [("user-agent", "curl/8.5"), ("accept", "*/*")]
    method := "GET"
    url := "/"
    ip := "127.0.0.1"
    protocol := "http"
    httpVersion := "1.1"
    size := requestSizeBytes Body.undefined }

/-- A concrete response snapshot used for closed evaluations: the handler
captured an 11-byte JSON body, and the Content-Length header says 5000. -/
def respdEx : ResponseData :=
  { body := Body.str "\x7b\"ok\":true\x7d"
    headers := [("content-length", "5000")]
    statusCode := 200
    length := SizeVal.header "5000" }

/-- The body sent by the handler in the GET scenario. -/
def bodyC9 : Body := Body.obj (JsValue.obj [("ok", JsValue.bool true)])

/-- Response state after the handler calls the patched send with the
scenario payload. -/
def stateC9 : RespState := wrappedSend bodyC9 initResp

/-- The GET request of the scenario: no body. -/
def reqC9 : Req :=
  { body := Body.undefined
    headers := [("user-agent", "curl/8.5")]
    method := "GET"
    originalUrl := "/health"
    ip := "127.0.0.1"
    protocol := "http"
    httpVersion := "1.1" }

/-- The finished response of the scenario: captured state, JSON headers,
status 200, no attached error. -/
def resC9 : ResSnapshot :=
  { state := stateC9
    headers :=
      [("content-type", "application/json; charset=utf-8"),
       ("content-length", "11")]
    statusCode := 200
    localsError := none }

/-- A template engine whose output differs from the view name, used to
evaluate the render wrapper against the emitted payload. -/
def htmlRenderer (view : String) (options : RenderOpt) : String :=
  "<html>" ++ view ++ "</html>"

/-- The code's body-to-string conversion agrees with the serialized body
as the spec words it. -/
theorem bodyToString_eq_specSerializedBody (b : Body) :
    bodyToString b = specSerializedBody b := by
  cases b <;> rfl

/-- C1 is false as stated: after the patched render runs on view "index",
the scratch field holds the view name, while the payload the delegated
original emits under a template engine is the rendered page, which
differs from the stored value. -/
theorem render_scratch_is_view_name_not_payload :
    (wrappedRender "index" RenderOpt.undefined none initResp).scratch
      = some (Body.str "index") ∧
    payloadsOf htmlRenderer
        (wrappedRender "index" RenderOpt.undefined none initResp)
      = [Body.str "<html>index</html>"] ∧
    some (Body.str "index") ≠ some (Body.str "<html>index</html>") := by
  refine ⟨rfl, rfl, by decide⟩

/-- C1 (amended): the patched send stores exactly its payload argument in
the scratch field and delegates with unchanged arguments; the patched
render stores the view name (not the eventually-emitted payload) and
delegates after the same options/callback normalization the framework
itself performs; in both cases the calls reaching the original
implementations — and hence the payload stream any template engine
delivers to the client — are identical to the unpatched ones. -/
theorem wrappers_capture_and_delegate_byte_identical
    (body : Body) (view : String) (options : RenderOpt)
    (callback : Option ℕ) (st : RespState)
    (renderer : String → RenderOpt → String) :
    (wrappedSend body st).scratch = some body ∧
    (wrappedSend body st).emitted = (originalSend body st).emitted ∧
    payloadsOf renderer (wrappedSend body st)
      = payloadsOf renderer (originalSend body st) ∧
    (wrappedRender view options callback st).scratch = some (Body.str view) ∧
    (wrappedRender view options callback st).emitted
      = (originalRender view options callback st).emitted ∧
    payloadsOf renderer (wrappedRender view options callback st)
      = payloadsOf renderer (originalRender view options callback st) := by
  refine ⟨rfl, rfl, rfl, ?_, ?_, ?_⟩ <;> cases options <;> rfl

/-- C2: the reporter attempts exactly one transmission per request and its
promise chain never propagates an error: an ok response logs nothing, a
non-success status logs one console line with the status text, a
transport failure logs one console line, and in every case nothing is
thrown onward to the request pipeline. -/
theorem reporter_attempts_once_and_swallows_failures (call : FetchCall) :
    (∀ outcome, (reportToApiHat call outcome).thrown = none) ∧
    (∀ outcome, (reportToApiHat call outcome).attempts = [call]) ∧
    (∀ stx, (reportToApiHat call
        (FetchOutcome.response { ok := true, statusText := stx })).logs
      = []) ∧
    (∀ stx, (reportToApiHat call
        (FetchOutcome.response { ok := false, statusText := stx })).logs
      = ["[error] Sending data to API Hat failed: " ++ stx]) ∧
    (∀ msg, (reportToApiHat call (FetchOutcome.failure msg)).logs
      = ["[error] Sending data to API Hat failed"]) :=
  ⟨fun _ => rfl, fun _ => rfl, fun _ => rfl, fun _ => rfl, fun _ => rfl⟩

/-- C3 is false as stated: with a Content-Length header "5000" present —
and indeed selected by the finish handler's `responseSize` computation —
the record still reports the 11-byte captured body as 11/1024 KB, not a
size taken from the header. -/
theorem response_size_not_taken_from_header :
    finishResponseSize
        (getHeaderCI [("content-length", "5000")] "Content-Length")
        (some (Body.str "\x7b\"ok\":true\x7d"))
      = some (SizeVal.header "5000") ∧
    (buildTelemetryRecord envEx "key" "proj" rdEx respdEx (0, 0) none
        []).response.size = 11 / 1024 ∧
    ((11 : ℚ) / 1024 ≠ 5000) ∧ ((11 : ℚ) / 1024 ≠ 5000 / 1024) :=
  ⟨rfl, rfl, by norm_num, by norm_num⟩

/-- C3 (amended): the Content-Length-preferring `responseSize` reaches the
reporter only as `responseData.length`, which the record never reads: the
record's response.size always equals the byte length of the serialized
captured body divided by 1024, whatever `length` holds. -/
theorem response_size_always_from_body (env : Env) (apiKey projectId : String)
    (rd : RequestData) (respd : ResponseData) (hrDiff : ℤ × ℤ)
    (err : Option ErrObj) (m : MaskMap) (l1 l2 : SizeVal) :
    (buildTelemetryRecord env apiKey projectId rd respd hrDiff err
        m).response.size
      = ((bodyToString respd.body).utf8ByteSize : ℚ) / 1024 ∧
    buildTelemetryRecord env apiKey projectId rd
        { respd with length := l1 } hrDiff err m
      = buildTelemetryRecord env apiKey projectId rd
        { respd with length := l2 } hrDiff err m :=
  ⟨rfl, rfl⟩

/-- C4: the record's request.size and response.size equal the UTF-8 byte
length of the serialized body — the body JSON-stringified when it is an
object, the empty string when it is absent — divided by 1024. -/
theorem record_sizes_are_kb_of_serialized_body (env : Env)
    (apiKey projectId : String) (rd : RequestData) (respd : ResponseData)
    (hrDiff : ℤ × ℤ) (err : Option ErrObj) (m : MaskMap) :
    (buildTelemetryRecord env apiKey projectId rd respd hrDiff err
        m).request.size = specSizeInKB rd.body ∧
    (buildTelemetryRecord env apiKey projectId rd respd hrDiff err
        m).response.size = specSizeInKB respd.body := by
  constructor <;>
  · show ((bodyToString _).utf8ByteSize : ℚ) / 1024 = _
    rw [bodyToString_eq_specSerializedBody]
    rfl

/-- C5: with an error object attached to the scratch context the record's
error list is exactly one descriptor with source "onException" and type
"UNHANDLED_EXCEPTION" carrying the error's message and optional
file/line; with no error attached it is empty. -/
theorem record_errors_exactly_from_context (env : Env)
    (apiKey projectId : String) (rd : RequestData) (respd : ResponseData)
    (hrDiff : ℤ × ℤ) (m : MaskMap) :
    (buildTelemetryRecord env apiKey projectId rd respd hrDiff none
        m).errors = [] ∧
    ∀ e : ErrObj,
      (buildTelemetryRecord env apiKey projectId rd respd hrDiff (some e)
          m).errors
        = [{ source := "onException", type := "UNHANDLED_EXCEPTION",
             message := e.message, file := e.fileName,
             line := e.lineNumber }] :=
  ⟨rfl, fun _ => rfl⟩

/-- C6: the outbound transmission is a POST to the fixed collector
endpoint with Content-Type application/json and the api key in the
x-api-key header; its body is the JSON serialization of `dataToSend`, a
one-element array holding the single telemetry record, which itself
carries the api key in its api_key field. -/
theorem fetch_posts_single_record_with_key (env : Env)
    (apiKey projectId : String) (rd : RequestData) (respd : ResponseData)
    (hrDiff : ℤ × ℤ) (err : Option ErrObj) (m : MaskMap) :
    sendPayloadToApiHat env apiKey projectId rd respd hrDiff err m =
      { url := "https://api.apihat.com/api/requests"
        method := "POST"
        headers := [("Content-Type", "application/json"),
                    ("x-api-key", apiKey)]
        body := jsonStringify (JsValue.arr
          [recordToJs (buildTelemetryRecord env apiKey projectId rd respd
            hrDiff err m)]) } ∧
    dataToSend env apiKey projectId rd respd hrDiff err m
      = [buildTelemetryRecord env apiKey projectId rd respd hrDiff err m] ∧
    (buildTelemetryRecord env apiKey projectId rd respd hrDiff err
        m).api_key = apiKey :=
  ⟨rfl, rfl, rfl⟩

/-- C7: the record's load_time is `getRequestDuration` of the hrtime
pair, which equals the ceiling of the elapsed nanoseconds divided by
1000, and is non-negative whenever the elapsed nanoseconds are. -/
theorem load_time_is_ceil_of_elapsed_micro (env : Env)
    (apiKey projectId : String) (rd : RequestData) (respd : ResponseData)
    (hrDiff : ℤ × ℤ) (err : Option ErrObj) (m : MaskMap) :
    (buildTelemetryRecord env apiKey projectId rd respd hrDiff err
        m).response.load_time = getRequestDuration hrDiff ∧
    getRequestDuration hrDiff
      = ⌈((hrDiff.1 * 1000000000 + hrDiff.2 : ℤ) : ℚ) / 1000⌉ ∧
    (0 ≤ hrDiff.1 * 1000000000 + hrDiff.2 →
      0 ≤ getRequestDuration hrDiff) := by
  refine ⟨rfl, rfl, fun h => ?_⟩
  unfold getRequestDuration
  exact Int.ceil_nonneg (div_nonneg (by exact_mod_cast h) (by norm_num))

/-- Witness: the load-time theorem applied at a concrete environment and
an elapsed pair of one second and 500 nanoseconds. -/
theorem load_time_is_ceil_of_elapsed_micro_witness :
    (0 : ℤ) ≤ (1 : ℤ) * 1000000000 + (500 : ℤ) ∧
    0 ≤ getRequestDuration (1, 500) :=
  ⟨by norm_num,
   (load_time_is_ceil_of_elapsed_micro envEx "key" "proj" rdEx respdEx
      (1, 500) none []).2.2 (by norm_num)⟩

/-- C8: the masking helper returns its input payload unchanged for every
payload and every mapping of field names to masking rules — it is the
identity function. -/
theorem maskSensitiveValues_identity {α : Type} (payload : α)
    (fieldsToMaskMap : MaskMap) :
    maskSensitiveValues payload fieldsToMaskMap = payload := rfl

/-- C9: for a GET request with no body whose handler sends the object
with ok true at status 200, the finish handler's record has a null
request body, the sent object as response body, code 200, and response
size 11/1024 KB, which is strictly positive. -/
theorem get_ok_scenario_record (env : Env) (apiKey projectId : String)
    (hrDiff : ℤ × ℤ) :
    (onFinishRecord env apiKey projectId reqC9 resC9 hrDiff).map
        (fun r => r.request.body) = some (Body.obj JsValue.null) ∧
    (onFinishRecord env apiKey projectId reqC9 resC9 hrDiff).map
        (fun r => r.response.body)
      = some (Body.obj (JsValue.obj [("ok", JsValue.bool true)])) ∧
    (onFinishRecord env apiKey projectId reqC9 resC9 hrDiff).map
        (fun r => r.response.code) = some 200 ∧
    (onFinishRecord env apiKey projectId reqC9 resC9 hrDiff).map
        (fun r => r.response.size) = some (11 / 1024) ∧
    (0 : ℚ) < 11 / 1024 := by
  refine ⟨rfl, rfl, rfl, rfl, by norm_num⟩

/-- C10: every telemetry record carries the constant client-version
string "1.0.0" and the constant runtime tag "node" in its sdk field,
whatever the request, response, credentials and environment are. -/
theorem record_version_and_sdk_constant (env : Env)
    (apiKey projectId : String) (rd : RequestData) (respd : ResponseData)
    (hrDiff : ℤ × ℤ) (err : Option ErrObj) (m : MaskMap) :
    (buildTelemetryRecord env apiKey projectId rd respd hrDiff err
        m).version = "1.0.0" ∧
    (buildTelemetryRecord env apiKey projectId rd respd hrDiff err m).sdk
      = "node" :=
  ⟨rfl, rfl⟩
